import Mathlib

/-
Verification of the symbolic-hardware device descriptor subsystem
(SymbolicHardware plugin: descriptor factory, registry, and the
host device-model bridge), as a shallow embedding in Lean 4.

Configuration reads are modelled as `Option` values: `none` stands for a
getter whose success flag came back false.  Machine-integer assignments
are modelled by explicit `% 2 ^ w` truncation at the width of the C type
receiving the value (uint64_t for `start`, uint16_t for `size`/`vid`/`pid`,
uint32_t for `classCode`/resource sizes, uint8_t for `irq`/`revisionId`/
`interruptPin`).
-/

namespace SymbHW

/-- An ISA port resource as stored in a built descriptor:
portBase (uint16 range, read through uint64_t), portSize (uint16_t),
irq (uint8_t). -/
structure IsaResource where
  portBase : Nat
  portSize : Nat
  irq : Nat
deriving DecidableEq

/-- A PCI resource as stored in a built descriptor: size (uint32_t),
isIo and prefetchable flags. -/
structure PciResource where
  size : Nat
  isIo : Bool
  prefetchable : Bool
deriving DecidableEq

/-- One entry of the configured `resources` list. Each field is the value
returned by the typed getter, `none` when the getter's ok flag is false. -/
structure PciResourceConfig where
  isIo : Option Bool
  isPrefetchable : Option Bool
  size : Option Nat
deriving DecidableEq

/-- One device sub-section of the configuration. Every key the factory may
query is present as an `Option`; `none` models a missing key (ok = false). -/
structure DeviceConfig where
  id : Option String
  devType : Option String
  start : Option Nat
  size : Option Nat
  irq : Option Nat
  vid : Option Nat
  pid : Option Nat
  classCode : Option Nat
  revisionId : Option Nat
  interruptPin : Option Nat
  resources : Option (List PciResourceConfig)
deriving DecidableEq

/-- The ISA descriptor: id plus its one ISA resource
(IsaDeviceDescriptor in the source). -/
structure IsaDeviceDescriptor where
  id : String
  res : IsaResource
deriving DecidableEq

/-- The PCI descriptor (PciDeviceDescriptor in the source): identity fields
and the validated resource list; `mmio_io_addr` is the MMIO handle the host
bridge records at instance-init time (none until then). -/
structure PciDeviceDescriptor where
  id : String
  vid : Nat
  pid : Nat
  classCode : Nat
  revisionId : Nat
  interruptPin : Nat
  resources : List PciResource
  mmio_io_addr : Option Nat
deriving DecidableEq

/-- The polymorphic descriptor family kept by the registry. -/
inductive DeviceDescriptor where
  | isa (d : IsaDeviceDescriptor)
  | pci (d : PciDeviceDescriptor)
deriving DecidableEq

/-- The common identity (m_id) of a descriptor. -/
def DeviceDescriptor.id : DeviceDescriptor → String
  | .isa d => d.id
  | .pci d => d.id

/-- IsaDeviceDescriptor::create: reads start into uint64_t (fails unless
ok and start <= 0xFFFF), size into uint16_t (truncating), checks
start + size <= 0x10000 on the truncated size, reads irq into uint8_t
(truncating; fails unless irq <= 15), and builds the descriptor. -/
def IsaDeviceDescriptor.create (cfg : DeviceConfig) : Option IsaDeviceDescriptor :=
  cfg.id.bind fun i =>
  cfg.start.bind fun startRaw =>
  let start := startRaw % 2 ^ 64
  if start > 0xFFFF then none else
  cfg.size.bind fun sizeRaw =>
  let size := sizeRaw % 2 ^ 16
  if start + size > 0x10000 then none else
  cfg.irq.bind fun irqRaw =>
  let irq := irqRaw % 2 ^ 8
  if irq > 15 then none else
  some { id := i, res := { portBase := start, portSize := size, irq := irq } }

/-- One iteration of the PCI resource loop: isIo is required; when the
resource is not IO, isPrefetchable is required too (the getter's default
false is kept when the key is absent but the resource is IO); size is
required and read into uint32_t. -/
def parsePciResource (r : PciResourceConfig) : Option PciResource :=
  r.isIo.bind fun isIo =>
  if r.isPrefetchable.isNone && !isIo then none else
  r.size.bind fun sz =>
  some { size := sz % 2 ^ 32, isIo := isIo, prefetchable := r.isPrefetchable.getD false }

/-- The PCI resource loop: the first failing entry aborts the whole device. -/
def parsePciResources : List PciResourceConfig → Option (List PciResource)
  | [] => some []
  | r :: rs =>
    (parsePciResource r).bind fun res =>
    (parsePciResources rs).bind fun tail =>
    some (res :: tail)

/-- PciDeviceDescriptor::create: vid and pid are required (uint16_t),
classCode is required and must satisfy classCode <= 0xFFFFFF after
truncation to uint32_t, revisionId is required (uint8_t), interruptPin is
required and must satisfy interruptPin <= 4 after truncation to uint8_t;
the resources list must exist and be non-empty, every entry must parse,
and after the loop at most 6 resources are accepted. -/
def PciDeviceDescriptor.create (cfg : DeviceConfig) : Option PciDeviceDescriptor :=
  cfg.id.bind fun i =>
  cfg.vid.bind fun vidRaw =>
  cfg.pid.bind fun pidRaw =>
  cfg.classCode.bind fun ccRaw =>
  if ccRaw % 2 ^ 32 > 0xFFFFFF then none else
  cfg.revisionId.bind fun revRaw =>
  cfg.interruptPin.bind fun pinRaw =>
  if pinRaw % 2 ^ 8 > 4 then none else
  cfg.resources.bind fun resCfgs =>
  if resCfgs.isEmpty then none else
  (parsePciResources resCfgs).bind fun resources =>
  if resources.length > 6 then none else
  some { id := i, vid := vidRaw % 2 ^ 16, pid := pidRaw % 2 ^ 16,
         classCode := ccRaw % 2 ^ 32, revisionId := revRaw % 2 ^ 8,
         interruptPin := pinRaw % 2 ^ 8, resources := resources,
         mmio_io_addr := none }

/-- DeviceDescriptor::create: id must be present and non-empty, type must be
exactly "isa" or "pci", then the matching sub-builder runs. -/
def DeviceDescriptor.create (cfg : DeviceConfig) : Option DeviceDescriptor :=
  cfg.id.bind fun i =>
  if i = "" then none else
  cfg.devType.bind fun devType =>
  if devType ≠ "pci" ∧ devType ≠ "isa" then none else
  if devType = "isa" then Option.map DeviceDescriptor.isa (IsaDeviceDescriptor.create cfg)
  else if devType = "pci" then Option.map DeviceDescriptor.pci (PciDeviceDescriptor.create cfg)
  else none

/-- Modelled from the spec: the registry's descriptor set (its type lives in
the header SymbolicHardware.h, which is not among the repository files) is a
set keyed solely by id, so inserting a descriptor whose id is already present
leaves the set unchanged (std::set insert: first wins, silently). -/
def registryInsert (devs : List DeviceDescriptor) (d : DeviceDescriptor) :
    List DeviceDescriptor :=
  if devs.any (fun x => x.id == d.id) then devs else devs ++ [d]

/-- SymbolicHardware::findDevice: look the set up by id; NULL (none) when
no descriptor with that id is present. -/
def SymbolicHardware.findDevice (devs : List DeviceDescriptor) (name : String) :
    Option DeviceDescriptor :=
  devs.find? fun x => x.id == name

/-- Outcome of SymbolicHardware::initialize: the plugin warns and continues
without symbolic hardware, or calls exit(-1), or starts with a registry. -/
inductive InitOutcome where
  | noHardware
  | fatalExit
  | started (devices : List DeviceDescriptor)
deriving DecidableEq

/-- The per-entry loop of SymbolicHardware::initialize: each entry goes
through the factory; a NULL result is fatal (exit(-1)); a built descriptor
is inserted into the keyed set. -/
def buildDevices : List DeviceConfig → List DeviceDescriptor → InitOutcome
  | [], acc => .started acc
  | c :: rest, acc =>
    match DeviceDescriptor.create c with
    | none => .fatalExit
    | some d => buildDevices rest (registryInsert acc d)

/-- SymbolicHardware::initialize: when the device-list key is absent or the
list is empty, the plugin only warns that S2E will start without symbolic
hardware and returns; otherwise it builds every entry. -/
def SymbolicHardware.initializePlugin (keys : Option (List DeviceConfig)) : InitOutcome :=
  match keys with
  | none => .noHardware
  | some l => if l.isEmpty then .noHardware else buildDevices l []

/-- The bridge entry points the host receives by function pointer. -/
inductive HostEntry where
  | pciInitFn
  | pciUninitFn
  | isaInitFn
deriving DecidableEq

/-- One VMStateField as the source fills it in: the name and whether the
VMS_STRUCT flag (pointing at vmstate_pci_device) is set; the second slot of
the allocated pair stays zeroed (the terminator). -/
structure VMStateField where
  fname : String
  isStructField : Bool
deriving DecidableEq

/-- A VMStateDescription as built by PciDeviceDescriptor::initializeQemuDevice.
The source allocates it zero-initialized and assigns name and the three
version numbers; its fields pointer is never assigned, so it stays none. -/
structure VMStateDescription where
  vname : String
  version_id : Nat
  minimum_version_id : Nat
  minimum_version_id_old : Nat
  fieldsAttached : Option (List VMStateField)
deriving DecidableEq

/-- The PCIDeviceInfo record handed to pci_qdev_register: qdev name, the
save/restore schema pointer copied from m_vmState, and the init/exit entry
points. (The instance-state byte size is memory layout and is not modelled.) -/
structure PCIDeviceInfo where
  qdevName : String
  qdevVmsd : Option VMStateDescription
  initEntry : HostEntry
  exitEntry : Option HostEntry
deriving DecidableEq

/-- What one call of PciDeviceDescriptor::initializeQemuDevice produces:
the record given to pci_qdev_register, the VMStateDescription the call
allocates (the descriptor's m_vmState afterwards), and the VMStateField
pair it allocates. -/
structure PciQemuRegistration where
  registered : PCIDeviceInfo
  vmStateAfter : VMStateDescription
  vmStateFields : List VMStateField
deriving DecidableEq

/-- PciDeviceDescriptor::initializeQemuDevice, with the descriptor's
m_vmState before the call passed explicitly (the constructor sets it to
NULL, i.e. none). The source copies m_vmState into m_pciInfo->qdev.vmsd
BEFORE allocating the new VMStateDescription, so the registered record
carries the old pointer; the new schema's fields pointer is never set. -/
def PciDeviceDescriptor.initializeQemuDevice (d : PciDeviceDescriptor)
    (vmStateBefore : Option VMStateDescription) : PciQemuRegistration :=
  { registered :=
      { qdevName := d.id, qdevVmsd := vmStateBefore,
        initEntry := HostEntry.pciInitFn, exitEntry := some HostEntry.pciUninitFn }
    vmStateAfter :=
      { vname := d.id, version_id := 3, minimum_version_id := 3,
        minimum_version_id_old := 3, fieldsAttached := none }
    vmStateFields :=
      [{ fname := "dev", isStructField := true }, { fname := "", isStructField := false }] }

/-- Constant of the external qemu PCI header: the IO space flag of a BAR type. -/
def PCI_BASE_ADDRESS_SPACE_IO : Nat := 1

/-- Constant of the external qemu PCI header: the memory space flag (zero). -/
def PCI_BASE_ADDRESS_SPACE_MEMORY : Nat := 0

/-- Constant of the external qemu PCI header: the prefetchable memory flag. -/
def PCI_BASE_ADDRESS_MEM_PREFETCH : Nat := 8

/-- Constant of the external qemu PCI header: the normal header type byte. -/
def PCI_HEADER_TYPE_NORMAL : Nat := 0

/-- The BAR type flags pci_symbhw_init derives from one resource:
IO or memory space, or-ed with the prefetch flag. -/
def pciBarType (r : PciResource) : Nat :=
  (if r.isIo then PCI_BASE_ADDRESS_SPACE_IO else PCI_BASE_ADDRESS_SPACE_MEMORY) |||
  (if r.prefetchable then PCI_BASE_ADDRESS_MEM_PREFETCH else 0)

/-- One pci_register_bar call: BAR index, size and type flags. -/
structure PciBar where
  index : Nat
  size : Nat
  barType : Nat
deriving DecidableEq

/-- The BAR registration loop of pci_symbhw_init: one BAR per resource in
declaration order, the counter incremented after each registration. -/
def mkBars : Nat → List PciResource → List PciBar
  | _, [] => []
  | i, r :: rs => { index := i, size := r.size, barType := pciBarType r } :: mkBars (i + 1) rs

/-- The bytes of a PCI instance's configuration space that the bridge can
write, at field granularity (offsets live in the external qemu header);
none means the bridge never wrote the field. -/
structure PciConfigSpace where
  vendorId : Option Nat
  deviceId : Option Nat
  classCode : Option Nat
  headerType : Option Nat
  revisionId : Option Nat
  interruptPin : Option Nat
deriving DecidableEq

/-- A fresh instance's configuration space: nothing written yet. -/
def emptyPciConfigSpace : PciConfigSpace :=
  { vendorId := none, deviceId := none, classCode := none,
    headerType := none, revisionId := none, interruptPin := none }

/-- The host-owned PCI instance state that pci_symbhw_init configures:
configuration-space writes, registered BARs, and the registered MMIO
region handle. -/
structure PciInstance where
  conf : PciConfigSpace
  bars : List PciBar
  mmio : Option Nat
deriving DecidableEq

/-- pci_symbhw_init: writes vendor id, device id, class code, the normal
header type and the interrupt pin into configuration space (nothing else),
registers one BAR per declared resource in declaration order, registers one
MMIO region (whose fresh handle, returned by cpu_register_io_memory, is
passed in) and records that handle on the descriptor. -/
def pci_symbhw_init (dd : PciDeviceDescriptor) (mmioHandle : Nat) :
    PciInstance × PciDeviceDescriptor :=
  let conf0 := emptyPciConfigSpace
  let conf1 := { conf0 with vendorId := some dd.vid }
  let conf2 := { conf1 with deviceId := some dd.pid }
  let conf3 := { conf2 with classCode := some dd.classCode }
  let conf4 := { conf3 with headerType := some PCI_HEADER_TYPE_NORMAL }
  let conf5 := { conf4 with interruptPin := some dd.interruptPin }
  ({ conf := conf5, bars := mkBars 0 dd.resources, mmio := some mmioHandle },
   { dd with mmio_io_addr := some mmioHandle })

/-- Hexadecimal rendering of an integer field, as std::hex prints it
(lowercase digits, no leading zeros, "0" for zero). -/
def hexS (n : Nat) : String := String.mk (Nat.toDigits 16 n)

/-- How a C++ bool inserts into a stream through (int): 1 or 0. -/
def boolNat (b : Bool) : Nat := if b then 1 else 0

/-- IsaDeviceDescriptor::print: id, then portBase and portSize in hex.
The irq field is not printed. -/
def IsaDeviceDescriptor.print (d : IsaDeviceDescriptor) : String :=
  "ISA Device Descriptor id=" ++ d.id ++ "\n" ++
  "Base=0x" ++ hexS d.res.portBase ++ " Size=0x" ++ hexS d.res.portSize ++ "\n" ++ "\n"

/-- One line of the PCI resource dump, with the index counter value the loop
holds when it prints (the stream is still in hex mode). -/
def pciResourceLine (i : Nat) (r : PciResource) : String :=
  "R[" ++ hexS i ++ "]: " ++ "Size=0x" ++ hexS r.size ++
  " IsIO=" ++ hexS (boolNat r.isIo) ++
  " IsPrefetchable=0x" ++ hexS (boolNat r.prefetchable) ++ "\n"

/-- The resource loop of PciDeviceDescriptor::print. The counter i is
declared and printed but never incremented, so every line shows the same
index value. -/
def pciResourceLines : Nat → List PciResource → String
  | _, [] => ""
  | i, r :: rs => pciResourceLine i r ++ pciResourceLines i rs

/-- PciDeviceDescriptor::print: id, VID/PID/RevID, Class/INT, then the
resource lines, everything numeric in hex. -/
def PciDeviceDescriptor.print (d : PciDeviceDescriptor) : String :=
  "PCI Device Descriptor id=" ++ d.id ++ "\n" ++
  "VID=0x" ++ hexS d.vid ++ " PID=0x" ++ hexS d.pid ++
  " RevID=0x" ++ hexS d.revisionId ++ "\n" ++
  "Class=0x" ++ hexS d.classCode ++ " INT=0x" ++ hexS d.interruptPin ++ "\n" ++
  pciResourceLines 0 d.resources ++ "\n"

/-- Containment of one string in another, on the underlying character
lists: t occurs verbatim somewhere inside s. -/
def strContains (s t : String) : Prop :=
  ∃ a b, s.data = a ++ t.data ++ b

/-- Appending strings concatenates their character lists. -/
theorem strData_append (s t : String) : (s ++ t).data = s.data ++ t.data := by
  cases s; cases t; rfl

/-- Example ISA configuration whose configured size overflows 16 bits:
start 0, size 0x10001, irq 0. -/
def isaOverflowCfg : DeviceConfig :=
  { id := some "isa0", devType := some "isa", start := some 0, size := some 0x10001,
    irq := some 0, vid := none, pid := none, classCode := none, revisionId := none,
    interruptPin := none, resources := none }

/-- Example valid ISA configuration from the spec: start 0x300, size 0x10, irq 7. -/
def isaExampleCfg : DeviceConfig :=
  { id := some "sym0", devType := some "isa", start := some 0x300, size := some 0x10,
    irq := some 7, vid := none, pid := none, classCode := none, revisionId := none,
    interruptPin := none, resources := none }

/-- Example ISA configuration with size exactly 0x10000 (one past the largest
16-bit value), start 0 and irq 7. -/
def isaWrapCfg : DeviceConfig :=
  { id := some "wrap", devType := some "isa", start := some 0, size := some 0x10000,
    irq := some 7, vid := none, pid := none, classCode := none, revisionId := none,
    interruptPin := none, resources := none }

/-- C1 counterexample: a configuration whose configured start + size exceeds
0x10000 (start 0, size 0x10001) still yields a descriptor, because the size
is truncated to uint16_t before the range check; the stored portSize (1) is
not the configured size. So violating the claimed bound does not make the
builder fail, and a successful build does not store portSize = size. -/
theorem C1_counterexample :
    (0 : Nat) + 0x10001 > 0x10000 ∧
    IsaDeviceDescriptor.create isaOverflowCfg =
      some { id := "isa0", res := { portBase := 0, portSize := 1, irq := 0 } } ∧
    (1 : Nat) ≠ 0x10001 := by
  refine ⟨by norm_num, by decide, by norm_num⟩

/-- C1 amended: with id, start, size and irq all present, the ISA sub-builder
succeeds exactly when start (read through uint64_t) is at most 0xFFFF,
start plus the size truncated to 16 bits is at most 0x10000, and the irq
truncated to 8 bits is at most 15; a successful build stores
portBase = start, portSize = size mod 2^16 and irq = irq mod 2^8. -/
theorem C1_isa_create_amended (cfg : DeviceConfig) (i : String) (s z q : Nat)
    (hid : cfg.id = some i) (hs : cfg.start = some s) (hz : cfg.size = some z)
    (hq : cfg.irq = some q) :
    ((IsaDeviceDescriptor.create cfg).isSome ↔
      (s % 2 ^ 64 ≤ 0xFFFF ∧ s % 2 ^ 64 + z % 2 ^ 16 ≤ 0x10000 ∧ q % 2 ^ 8 ≤ 15)) ∧
    ∀ d, IsaDeviceDescriptor.create cfg = some d →
      d.id = i ∧ d.res.portBase = s % 2 ^ 64 ∧ d.res.portSize = z % 2 ^ 16 ∧
        d.res.irq = q % 2 ^ 8 := by
  unfold IsaDeviceDescriptor.create
  rw [hid, hs, hz, hq]
  simp only [Option.some_bind]
  constructor
  · constructor
    · intro hsome
      split_ifs at hsome with h1 h2 h3
      · simp at hsome
      · simp at hsome
      · simp at hsome
      · omega
    · intro hcond
      rw [if_neg (by omega), if_neg (by omega), if_neg (by omega)]
      rfl
  · intro d hd
    split_ifs at hd with h1 h2 h3
    rw [Option.some.injEq] at hd
    subst hd
    simp

/-- C1 witness: the spec's valid example (start 0x300, size 0x10, irq 7)
satisfies the amended success condition, so the builder returns a descriptor. -/
theorem C1_witness : (IsaDeviceDescriptor.create isaExampleCfg).isSome :=
  (C1_isa_create_amended isaExampleCfg "sym0" 0x300 0x10 7 rfl rfl rfl rfl).1.mpr
    (by norm_num)

/-- C10: whenever the ISA sub-builder succeeds, the stored portSize is the
configured size reduced modulo 2^16 (the uint16_t assignment truncates the
value before the range check uses it). -/
theorem C10_isa_size_truncation (cfg : DeviceConfig) (z : Nat) (d : IsaDeviceDescriptor)
    (hz : cfg.size = some z) (hd : IsaDeviceDescriptor.create cfg = some d) :
    d.res.portSize = z % 2 ^ 16 := by
  unfold IsaDeviceDescriptor.create at hd
  cases hcid : cfg.id with
  | none => rw [hcid] at hd; simp at hd
  | some i =>
    rw [hcid] at hd
    cases hcs : cfg.start with
    | none => rw [hcs] at hd; simp at hd
    | some s =>
      rw [hcs, hz] at hd
      simp only [Option.some_bind] at hd
      split_ifs at hd with h1 h2
      cases hci : cfg.irq with
      | none => rw [hci] at hd; simp at hd
      | some q =>
        rw [hci] at hd
        simp only [Option.some_bind] at hd
        split_ifs at hd with h3
        rw [Option.some.injEq] at hd
        subst hd
        simp

/-- C10 witness: a configured size of 0x10000 with start 0 and irq 7 builds
successfully, and the stored portSize is 0x10000 mod 2^16 = 0. -/
theorem C10_witness :
    IsaDeviceDescriptor.create isaWrapCfg =
      some { id := "wrap", res := { portBase := 0, portSize := 0, irq := 7 } } ∧
    ({ portBase := 0, portSize := 0, irq := 7 : IsaResource }).portSize = 0x10000 % 2 ^ 16 :=
  ⟨by decide,
   C10_isa_size_truncation isaWrapCfg 0x10000
     { id := "wrap", res := { portBase := 0, portSize := 0, irq := 7 } } rfl (by decide)⟩

/-- Inserting into the keyed set preserves distinctness of ids: either the
id is already present and the set is unchanged, or the new id is fresh. -/
theorem registryInsert_nodup (devs : List DeviceDescriptor) (d : DeviceDescriptor)
    (h : (devs.map DeviceDescriptor.id).Nodup) :
    ((registryInsert devs d).map DeviceDescriptor.id).Nodup := by
  unfold registryInsert
  split_ifs with hmem
  · exact h
  · rw [List.map_append, List.nodup_append]
    refine ⟨h, by simp, ?_⟩
    intro a ha hb
    simp only [List.map_cons, List.map_nil, List.mem_singleton] at hb
    subst hb
    simp only [List.any_eq_true, beq_iff_eq, not_exists, not_and] at hmem
    obtain ⟨x, hx, hxid⟩ := List.mem_map.mp ha
    exact hmem x hx hxid

/-- A started outcome of the initialization loop has pairwise distinct ids
whenever the accumulator does. -/
theorem buildDevices_started_nodup :
    ∀ (cs : List DeviceConfig) (acc r : List DeviceDescriptor),
      (acc.map DeviceDescriptor.id).Nodup → buildDevices cs acc = .started r →
      (r.map DeviceDescriptor.id).Nodup
  | [], acc, r, hacc, h => by
    unfold buildDevices at h
    rw [InitOutcome.started.injEq] at h
    subst h
    exact hacc
  | c :: rest, acc, r, hacc, h => by
    unfold buildDevices at h
    cases hc : DeviceDescriptor.create c with
    | none => rw [hc] at h; simp at h
    | some d =>
      rw [hc] at h
      exact buildDevices_started_nodup rest _ r (registryInsert_nodup acc d hacc) h

/-- The initialization loop never produces the no-hardware outcome: that
outcome only arises from an absent or empty device list. -/
theorem buildDevices_ne_noHardware :
    ∀ (cs : List DeviceConfig) (acc : List DeviceDescriptor),
      buildDevices cs acc ≠ InitOutcome.noHardware
  | [], _ => by simp [buildDevices]
  | c :: rest, acc => by
    unfold buildDevices
    cases hc : DeviceDescriptor.create c with
    | none => simp
    | some d => exact buildDevices_ne_noHardware rest (registryInsert acc d)

/-- In a registry with pairwise distinct ids, lookup by a member's id finds
exactly that member. -/
theorem findDevice_of_mem (r : List DeviceDescriptor)
    (hnd : (r.map DeviceDescriptor.id).Nodup) (d : DeviceDescriptor) (hd : d ∈ r) :
    SymbolicHardware.findDevice r d.id = some d := by
  induction r with
  | nil => simp at hd
  | cons x t ih =>
    rw [List.map_cons, List.nodup_cons] at hnd
    rcases List.mem_cons.mp hd with h | h
    · subst h
      exact List.find?_cons_of_pos _ (by simp)
    · have hne : x.id ≠ d.id := by
        intro he
        exact hnd.1 (by rw [he]; exact List.mem_map_of_mem DeviceDescriptor.id h)
      unfold SymbolicHardware.findDevice
      rw [List.find?_cons_of_neg _ (by simp [hne])]
      exact ih hnd.2 h

/-- A pair of configurations that differ only in size but share the id
"dup"; both are valid in isolation. -/
def dupCfgA : DeviceConfig :=
  { id := some "dup", devType := some "isa", start := some 0x300, size := some 0x10,
    irq := some 7, vid := none, pid := none, classCode := none, revisionId := none,
    interruptPin := none, resources := none }

/-- Second configuration with the same id "dup" but a different size. -/
def dupCfgB : DeviceConfig := { dupCfgA with size := some 0x20 }

/-- The descriptor built from dupCfgA. -/
def dupDescA : DeviceDescriptor :=
  DeviceDescriptor.isa { id := "dup", res := { portBase := 0x300, portSize := 0x10, irq := 7 } }

/-- C2 counterexample: two valid device entries with the same id do NOT make
initialization fail: startup completes (no fatal exit, no configuration
error) and the registry silently keeps only the first-built descriptor. -/
theorem C2_counterexample :
    dupCfgA.id = dupCfgB.id ∧ dupCfgA ≠ dupCfgB ∧
    SymbolicHardware.initializePlugin (some [dupCfgA, dupCfgB]) =
      InitOutcome.started [dupDescA] := by
  refine ⟨rfl, by decide, by decide⟩

/-- C2 amended: a duplicate id is silently ignored (the set keeps the first
descriptor; startup continues); after startup the registry's ids are
pairwise distinct, so at most one descriptor per id exists and anything
findDevice returns is a member carrying the looked-up id. -/
theorem C2_registry_amended (cs : List DeviceConfig) (r : List DeviceDescriptor)
    (h : SymbolicHardware.initializePlugin (some cs) = InitOutcome.started r) :
    (r.map DeviceDescriptor.id).Nodup ∧
    (∀ d1, d1 ∈ r → ∀ d2, d2 ∈ r → d1.id = d2.id → d1 = d2) ∧
    (∀ name d, SymbolicHardware.findDevice r name = some d → d ∈ r ∧ d.id = name) := by
  have hnd : (r.map DeviceDescriptor.id).Nodup := by
    simp only [SymbolicHardware.initializePlugin] at h
    split_ifs at h with he
    exact buildDevices_started_nodup cs [] r (by simp) h
  refine ⟨hnd, ?_, ?_⟩
  · exact fun d1 h1 d2 h2 hid => List.inj_on_of_nodup_map hnd h1 h2 hid
  · intro name d hfind
    refine ⟨List.mem_of_find?_eq_some hfind, ?_⟩
    have := List.find?_some hfind
    simpa using this

/-- C2 witness: started from the duplicate-id configuration pair, the
resulting one-element registry has pairwise distinct ids. -/
theorem C2_witness : (([dupDescA] : List DeviceDescriptor).map DeviceDescriptor.id).Nodup :=
  (C2_registry_amended [dupCfgA, dupCfgB] [dupDescA] (by decide)).1

/-- C3 counterexample: an empty (or absent) device list does not terminate
the process; initialization returns the warn-and-continue outcome, which is
not the fatal exit. -/
theorem C3_counterexample :
    SymbolicHardware.initializePlugin (some []) = InitOutcome.noHardware ∧
    SymbolicHardware.initializePlugin none = InitOutcome.noHardware ∧
    InitOutcome.noHardware ≠ InitOutcome.fatalExit := by
  refine ⟨rfl, rfl, by decide⟩

/-- C3 amended: an absent or empty device list makes startup warn that S2E
will start without symbolic hardware and continue (returning normally with
no devices registered); this warn-and-continue outcome arises exactly for
the absent or empty list, never from the build loop. -/
theorem C3_empty_config_amended (ks : Option (List DeviceConfig)) :
    SymbolicHardware.initializePlugin ks = InitOutcome.noHardware ↔
      ks = none ∨ ks = some [] := by
  cases ks with
  | none => simp [SymbolicHardware.initializePlugin]
  | some l =>
    cases l with
    | nil => simp [SymbolicHardware.initializePlugin]
    | cons c rest =>
      simp only [SymbolicHardware.initializePlugin, List.isEmpty_cons, if_false,
        Bool.false_eq_true, reduceCtorEq, Option.some.injEq, or_false, iff_false]
      intro hcontra
      exact buildDevices_ne_noHardware (c :: rest) [] hcontra

/-- C3 witness: the absent device list produces the warn-and-continue
outcome. -/
theorem C3_witness : SymbolicHardware.initializePlugin none = InitOutcome.noHardware :=
  (C3_empty_config_amended none).mpr (Or.inl rfl)

/-- C9: in any registry produced by startup, findDevice returns exactly the
descriptor stored under the looked-up id, and none for an id no member has. -/
theorem C9_findDevice_exact (ks : Option (List DeviceConfig)) (r : List DeviceDescriptor)
    (h : SymbolicHardware.initializePlugin ks = InitOutcome.started r) :
    (∀ d, d ∈ r → SymbolicHardware.findDevice r d.id = some d) ∧
    (∀ name, (∀ d, d ∈ r → d.id ≠ name) → SymbolicHardware.findDevice r name = none) := by
  have hnd : (r.map DeviceDescriptor.id).Nodup := by
    cases ks with
    | none => simp [SymbolicHardware.initializePlugin] at h
    | some cs =>
      simp only [SymbolicHardware.initializePlugin] at h
      split_ifs at h with he
      exact buildDevices_started_nodup cs [] r (by simp) h
  constructor
  · exact fun d hd => findDevice_of_mem r hnd d hd
  · intro name hnone
    unfold SymbolicHardware.findDevice
    rw [List.find?_eq_none]
    intro x hx
    simp [hnone x hx]

/-- C9 witness: in the registry built from one valid entry, lookup by the
stored id returns that descriptor and lookup by an unknown id returns none. -/
theorem C9_witness :
    SymbolicHardware.findDevice [dupDescA] (DeviceDescriptor.id dupDescA) = some dupDescA ∧
    SymbolicHardware.findDevice [dupDescA] "unknown" = none :=
  ⟨(C9_findDevice_exact (some [dupCfgA]) [dupDescA] (by decide)).1 dupDescA (by decide),
   (C9_findDevice_exact (some [dupCfgA]) [dupDescA] (by decide)).2 "unknown" (by decide)⟩

/-- The resource loop preserves the number of entries. -/
theorem parsePciResources_length :
    ∀ (rs : List PciResourceConfig) (l : List PciResource),
      parsePciResources rs = some l → l.length = rs.length
  | [], l, h => by
    simp only [parsePciResources, Option.some.injEq] at h
    subst h
    rfl
  | r :: rs, l, h => by
    unfold parsePciResources at h
    cases h1 : parsePciResource r with
    | none => rw [h1] at h; simp at h
    | some res =>
      rw [h1] at h
      simp only [Option.some_bind] at h
      cases h2 : parsePciResources rs with
      | none => rw [h2] at h; simp at h
      | some tail =>
        rw [h2] at h
        simp only [Option.some_bind, Option.some.injEq] at h
        subst h
        simp [parsePciResources_length rs tail h2]

/-- Inversion of a successful PCI build: the facts the checks guarantee for
the fields the testable properties talk about. -/
theorem pciCreate_some_inv (cfg : DeviceConfig) (d : PciDeviceDescriptor)
    (hd : PciDeviceDescriptor.create cfg = some d) :
    (∃ i, cfg.id = some i ∧ d.id = i) ∧
    (∃ c, cfg.classCode = some c ∧ c % 2 ^ 32 ≤ 0xFFFFFF ∧ d.classCode = c % 2 ^ 32) ∧
    (∃ p, cfg.interruptPin = some p ∧ p % 2 ^ 8 ≤ 4 ∧ d.interruptPin = p % 2 ^ 8) ∧
    (∃ rs, cfg.resources = some rs ∧ rs ≠ [] ∧
      parsePciResources rs = some d.resources ∧ d.resources.length ≤ 6) := by
  unfold PciDeviceDescriptor.create at hd
  simp only [Option.bind_eq_some] at hd
  obtain ⟨i, hi, vidr, hv, pidr, hp, ccr, hcc, hd⟩ := hd
  rw [ite_eq_iff] at hd
  rcases hd with ⟨-, hd⟩ | ⟨hccle, hd⟩
  · simp at hd
  simp only [Option.bind_eq_some] at hd
  obtain ⟨revr, hrev, pinr, hpin, hd⟩ := hd
  rw [ite_eq_iff] at hd
  rcases hd with ⟨-, hd⟩ | ⟨hpinle, hd⟩
  · simp at hd
  simp only [Option.bind_eq_some] at hd
  obtain ⟨rs, hrs, hd⟩ := hd
  rw [ite_eq_iff] at hd
  rcases hd with ⟨-, hd⟩ | ⟨hne, hd⟩
  · simp at hd
  simp only [Option.bind_eq_some] at hd
  obtain ⟨resl, hresl, hd⟩ := hd
  rw [ite_eq_iff] at hd
  rcases hd with ⟨-, hd⟩ | ⟨hlen, hd⟩
  · simp at hd
  rw [Option.some.injEq] at hd
  subst hd
  refine ⟨⟨i, hi, rfl⟩, ⟨ccr, hcc, by omega, rfl⟩, ⟨pinr, hpin, by omega, rfl⟩,
    ⟨rs, hrs, ?_, hresl, by simpa using hlen⟩⟩
  intro hnil
  subst hnil
  simp at hne

/-- The single resource entry of the spec's PCI example. -/
def pciExampleResCfg : PciResourceConfig :=
  { isIo := some false, isPrefetchable := some false, size := some 0x1000 }

/-- The spec's PCI example configuration: vid 0x1234, pid 0x5678,
classCode 0x0200, revisionId 1, interruptPin 1, one MMIO resource of size
0x1000. -/
def pciExampleCfg : DeviceConfig :=
  { id := some "symp0", devType := some "pci", start := none, size := none, irq := none,
    vid := some 0x1234, pid := some 0x5678, classCode := some 0x0200,
    revisionId := some 1, interruptPin := some 1, resources := some [pciExampleResCfg] }

/-- The descriptor the factory builds from the spec's PCI example. -/
def pciExampleDesc : PciDeviceDescriptor :=
  { id := "symp0", vid := 0x1234, pid := 0x5678, classCode := 0x0200, revisionId := 1,
    interruptPin := 1,
    resources := [{ size := 0x1000, isIo := false, prefetchable := false }],
    mmio_io_addr := none }

/-- C6: with the resources list present, a build can only succeed when the
list has between 1 and 6 entries; an empty list and a 7-entry (or longer)
list both force failure, and a successful build keeps one parsed resource
per configured entry. -/
theorem C6_pci_resource_count (cfg : DeviceConfig) (rs : List PciResourceConfig)
    (hres : cfg.resources = some rs) :
    (rs.length = 0 → PciDeviceDescriptor.create cfg = none) ∧
    (rs.length > 6 → PciDeviceDescriptor.create cfg = none) ∧
    (∀ d, PciDeviceDescriptor.create cfg = some d →
      1 ≤ rs.length ∧ rs.length ≤ 6 ∧ d.resources.length = rs.length) := by
  have main : ∀ d, PciDeviceDescriptor.create cfg = some d →
      1 ≤ rs.length ∧ rs.length ≤ 6 ∧ d.resources.length = rs.length := by
    intro d hd
    obtain ⟨-, -, -, rs2, hrs2, hne, hparse, hlen⟩ := pciCreate_some_inv cfg d hd
    rw [hres] at hrs2
    rw [Option.some.injEq] at hrs2
    subst hrs2
    have hlen2 := parsePciResources_length rs d.resources hparse
    have hpos : 0 < rs.length := List.length_pos.mpr hne
    omega
  refine ⟨?_, ?_, main⟩
  · intro h0
    cases hc : PciDeviceDescriptor.create cfg with
    | none => rfl
    | some d => have := main d hc; omega
  · intro h7
    cases hc : PciDeviceDescriptor.create cfg with
    | none => rfl
    | some d => have := main d hc; omega

/-- C6 witness: the spec's one-resource example satisfies the bounds and its
built descriptor keeps exactly one resource. -/
theorem C6_witness :
    1 ≤ ([pciExampleResCfg] : List PciResourceConfig).length ∧
    ([pciExampleResCfg] : List PciResourceConfig).length ≤ 6 ∧
    pciExampleDesc.resources.length = ([pciExampleResCfg] : List PciResourceConfig).length :=
  (C6_pci_resource_count pciExampleCfg [pciExampleResCfg] rfl).2.2 pciExampleDesc (by decide)

/-- A PCI configuration with every field valid and classCode exactly at the
0xFFFFFF boundary. -/
def pciBoundaryCfg : DeviceConfig :=
  { id := some "pcls", devType := some "pci", start := none, size := none, irq := none,
    vid := some 1, pid := some 2, classCode := some 0xFFFFFF, revisionId := some 3,
    interruptPin := some 0, resources := some [pciExampleResCfg] }

/-- The boundary configuration with classCode one past the 24-bit bound. -/
def pciOverCfg : DeviceConfig := { pciBoundaryCfg with classCode := some 0x1000000 }

/-- The boundary configuration with classCode 2^32, which the uint32_t read
truncates to 0. -/
def pciWrap32Cfg : DeviceConfig := { pciBoundaryCfg with classCode := some 0x100000000 }

/-- C8 counterexample: a configured classCode of 2^32 exceeds 0xFFFFFF, yet
the build succeeds (the uint32_t assignment truncates it to 0 before the
check), so exceeding 0xFFFFFF does not always fail. -/
theorem C8_counterexample :
    (0x100000000 : Nat) > 0xFFFFFF ∧
    PciDeviceDescriptor.create pciWrap32Cfg =
      some { id := "pcls", vid := 1, pid := 2, classCode := 0, revisionId := 3,
             interruptPin := 0,
             resources := [{ size := 0x1000, isIo := false, prefetchable := false }],
             mmio_io_addr := none } := by
  refine ⟨by norm_num, by decide⟩

/-- C8 amended: the build fails whenever the classCode truncated to uint32_t
exceeds 0xFFFFFF, and a classCode of exactly 0xFFFFFF (all other required
fields valid) succeeds. -/
theorem C8_classCode_amended :
    (∀ (cfg : DeviceConfig) (c : Nat), cfg.classCode = some c →
      c % 2 ^ 32 > 0xFFFFFF → PciDeviceDescriptor.create cfg = none) ∧
    PciDeviceDescriptor.create pciBoundaryCfg =
      some { id := "pcls", vid := 1, pid := 2, classCode := 0xFFFFFF, revisionId := 3,
             interruptPin := 0,
             resources := [{ size := 0x1000, isIo := false, prefetchable := false }],
             mmio_io_addr := none } := by
  constructor
  · intro cfg c hc hgt
    cases hd : PciDeviceDescriptor.create cfg with
    | none => rfl
    | some d =>
      obtain ⟨-, ⟨c2, hc2, hle, -⟩, -, -⟩ := pciCreate_some_inv cfg d hd
      rw [hc, Option.some.injEq] at hc2
      subst hc2
      omega
  · decide

/-- C8 witness: classCode 0x1000000 (one past the bound, below 2^32) makes
the build fail. -/
theorem C8_witness : PciDeviceDescriptor.create pciOverCfg = none :=
  C8_classCode_amended.1 pciOverCfg 0x1000000 rfl (by decide)

/-- C4: on the one call the startup subscription makes, the record handed to
pci_qdev_register carries qdevVmsd = none (m_vmState is still the
constructor's NULL when it is copied into the record; the fresh schema is
built only afterwards, and its field list is never attached), even though
both the init and the uninit entry points are bound. So the device type is
registered WITHOUT the save/restore schema, contradicting the claim. -/
theorem C4_vmsd_not_bound :
    (PciDeviceDescriptor.initializeQemuDevice pciExampleDesc none).registered.qdevVmsd = none ∧
    (PciDeviceDescriptor.initializeQemuDevice pciExampleDesc none).registered.initEntry =
      HostEntry.pciInitFn ∧
    (PciDeviceDescriptor.initializeQemuDevice pciExampleDesc none).registered.exitEntry =
      some HostEntry.pciUninitFn ∧
    (PciDeviceDescriptor.initializeQemuDevice pciExampleDesc none).vmStateAfter.vname =
      pciExampleDesc.id ∧
    (PciDeviceDescriptor.initializeQemuDevice pciExampleDesc none).vmStateAfter.fieldsAttached =
      none :=
  ⟨rfl, rfl, rfl, rfl, rfl⟩

/-- Fallback resource for total indexing. -/
def noPciResource : PciResource := { size := 0, isIo := false, prefetchable := false }

/-- Fallback BAR for total indexing. -/
def noPciBar : PciBar := { index := 0, size := 0, barType := 0 }

/-- The BAR loop registers one BAR per resource. -/
theorem mkBars_length : ∀ (i : Nat) (rs : List PciResource),
    (mkBars i rs).length = rs.length
  | _, [] => rfl
  | i, _ :: rs => by simp [mkBars, mkBars_length (i + 1) rs]

/-- The BAR registered at position j carries index i + j and the size and
type flags of the j-th resource. -/
theorem mkBars_getD :
    ∀ (rs : List PciResource) (i j : Nat), j < rs.length →
      (mkBars i rs).getD j noPciBar =
        { index := i + j, size := (rs.getD j noPciResource).size,
          barType := pciBarType (rs.getD j noPciResource) }
  | [], _, j, h => by simp at h
  | r :: rs, i, 0, _ => by simp [mkBars]
  | r :: rs, i, j + 1, h => by
    simp only [mkBars, List.getD_cons_succ]
    rw [mkBars_getD rs (i + 1) j (by simpa using h)]
    simp only [PciBar.mk.injEq, and_true, true_and]
    omega

/-- C5 amended: instance init writes vendor id, device id, class code, the
normal header type and the interrupt pin into configuration space — but not
the revision id, which is never written; it registers one BAR per resource
in declaration order (the BAR at position j has index j and the j-th
resource's size and type flags), registers the MMIO region and records its
handle on the descriptor. -/
theorem C5_pci_init_amended (dd : PciDeviceDescriptor) (h : Nat) :
    ((pci_symbhw_init dd h).1.conf.vendorId = some dd.vid) ∧
    ((pci_symbhw_init dd h).1.conf.deviceId = some dd.pid) ∧
    ((pci_symbhw_init dd h).1.conf.classCode = some dd.classCode) ∧
    ((pci_symbhw_init dd h).1.conf.headerType = some PCI_HEADER_TYPE_NORMAL) ∧
    ((pci_symbhw_init dd h).1.conf.interruptPin = some dd.interruptPin) ∧
    ((pci_symbhw_init dd h).1.conf.revisionId = none) ∧
    ((pci_symbhw_init dd h).1.bars.length = dd.resources.length) ∧
    (∀ j, j < dd.resources.length →
      (pci_symbhw_init dd h).1.bars.getD j noPciBar =
        { index := j, size := (dd.resources.getD j noPciResource).size,
          barType := pciBarType (dd.resources.getD j noPciResource) }) ∧
    ((pci_symbhw_init dd h).1.mmio = some h) ∧
    ((pci_symbhw_init dd h).2.mmio_io_addr = some h) := by
  refine ⟨rfl, rfl, rfl, rfl, rfl, rfl, mkBars_length 0 dd.resources, ?_, rfl, rfl⟩
  intro j hj
  have hb := mkBars_getD dd.resources 0 j hj
  simpa using hb

/-- C5 counterexample: on the spec's example descriptor (revisionId = 1),
instance init leaves the revision-id byte of configuration space unwritten,
so the bridge does not write the descriptor's revision id. -/
theorem C5_counterexample :
    (pci_symbhw_init pciExampleDesc 7).1.conf.revisionId = none ∧
    pciExampleDesc.revisionId = 1 :=
  ⟨rfl, rfl⟩

/-- C5 witness: for the example descriptor the BAR at position 0 has index 0,
size 0x1000 and memory (non-prefetchable) type flags. -/
theorem C5_witness :
    (pci_symbhw_init pciExampleDesc 7).1.bars.getD 0 noPciBar =
      { index := 0, size := 0x1000, barType := 0 } := by
  rw [(C5_pci_init_amended pciExampleDesc 7).2.2.2.2.2.2.2.1 0 (by decide)]
  decide

/-- Every string contains itself. -/
theorem strContains_refl (s : String) : strContains s s :=
  ⟨[], [], by simp⟩

/-- Containment survives appending on the right. -/
theorem strContains_appendL {s t : String} (u : String) (h : strContains s t) :
    strContains (s ++ u) t := by
  obtain ⟨a, b, hab⟩ := h
  exact ⟨a, b ++ u.data, by rw [strData_append, hab]; simp⟩

/-- Containment survives prepending on the left. -/
theorem strContains_appendR {s t : String} (u : String) (h : strContains s t) :
    strContains (u ++ s) t := by
  obtain ⟨a, b, hab⟩ := h
  exact ⟨u.data ++ a, b, by rw [strData_append, hab]; simp⟩

/-- Two adjacent pieces of a concatenation occur in it as one substring. -/
theorem strContains_pair (a x y : String) : strContains ((a ++ x) ++ y) (x ++ y) :=
  ⟨a.data, [], by simp [strData_append]⟩

/-- Each resource's line occurs in the loop's output (every line is rendered
with the same, never-incremented counter value). -/
theorem pciResourceLines_contain :
    ∀ (i : Nat) (rs : List PciResource) (r : PciResource), r ∈ rs →
      strContains (pciResourceLines i rs) (pciResourceLine i r)
  | _, [], _, h => by simp at h
  | i, x :: rs, r, h => by
    rcases List.mem_cons.mp h with h | h
    · subst h
      unfold pciResourceLines
      exact strContains_appendL _ (strContains_refl _)
    · unfold pciResourceLines
      exact strContains_appendR _ (pciResourceLines_contain i rs r h)

/-- C7 counterexample: two ISA descriptors that differ only in irq print
identically, so the output does not contain the irq and loses information. -/
theorem C7_counterexample :
    IsaDeviceDescriptor.print
        { id := "sym0", res := { portBase := 0x300, portSize := 0x10, irq := 3 } } =
      IsaDeviceDescriptor.print
        { id := "sym0", res := { portBase := 0x300, portSize := 0x10, irq := 7 } } ∧
    ({ id := "sym0", res := { portBase := 0x300, portSize := 0x10, irq := 3 } } :
        IsaDeviceDescriptor) ≠
      { id := "sym0", res := { portBase := 0x300, portSize := 0x10, irq := 7 } } :=
  ⟨rfl, by decide⟩

/-- C7 amended: print output contains the id; for ISA it contains portBase
and portSize in hex but omits irq; for PCI it contains vid, pid, revisionId,
classCode, interruptPin in hex, and each resource's size and flags in
declaration order — but every resource line is rendered with index 0. -/
theorem C7_print_amended :
    (∀ d : IsaDeviceDescriptor,
      strContains (IsaDeviceDescriptor.print d) d.id ∧
      strContains (IsaDeviceDescriptor.print d) ("Base=0x" ++ hexS d.res.portBase) ∧
      strContains (IsaDeviceDescriptor.print d) (" Size=0x" ++ hexS d.res.portSize)) ∧
    (∀ p : PciDeviceDescriptor,
      strContains (PciDeviceDescriptor.print p) p.id ∧
      strContains (PciDeviceDescriptor.print p) ("VID=0x" ++ hexS p.vid) ∧
      strContains (PciDeviceDescriptor.print p) (" PID=0x" ++ hexS p.pid) ∧
      strContains (PciDeviceDescriptor.print p) (" RevID=0x" ++ hexS p.revisionId) ∧
      strContains (PciDeviceDescriptor.print p) ("Class=0x" ++ hexS p.classCode) ∧
      strContains (PciDeviceDescriptor.print p) (" INT=0x" ++ hexS p.interruptPin) ∧
      ∀ r, r ∈ p.resources →
        strContains (PciDeviceDescriptor.print p) (pciResourceLine 0 r)) := by
  constructor
  · intro d
    unfold IsaDeviceDescriptor.print
    refine ⟨?_, ?_, ?_⟩ <;>
      repeat
        first
        | exact strContains_appendR _ (strContains_refl _)
        | exact strContains_pair _ _ _
        | apply strContains_appendL
  · intro p
    unfold PciDeviceDescriptor.print
    refine ⟨?_, ?_, ?_, ?_, ?_, ?_, ?_⟩
    · repeat
        first
        | exact strContains_appendR _ (strContains_refl _)
        | exact strContains_pair _ _ _
        | apply strContains_appendL
    · repeat
        first
        | exact strContains_appendR _ (strContains_refl _)
        | exact strContains_pair _ _ _
        | apply strContains_appendL
    · repeat
        first
        | exact strContains_appendR _ (strContains_refl _)
        | exact strContains_pair _ _ _
        | apply strContains_appendL
    · repeat
        first
        | exact strContains_appendR _ (strContains_refl _)
        | exact strContains_pair _ _ _
        | apply strContains_appendL
    · repeat
        first
        | exact strContains_appendR _ (strContains_refl _)
        | exact strContains_pair _ _ _
        | apply strContains_appendL
    · repeat
        first
        | exact strContains_appendR _ (strContains_refl _)
        | exact strContains_pair _ _ _
        | apply strContains_appendL
    · intro r hr
      apply strContains_appendL
      apply strContains_appendR
      exact pciResourceLines_contain 0 p.resources r hr

/-- C7 witness: the example descriptor's print output contains its one
resource's line (rendered with index 0). -/
theorem C7_witness :
    strContains (PciDeviceDescriptor.print pciExampleDesc)
      (pciResourceLine 0 { size := 0x1000, isIo := false, prefetchable := false }) :=
  (C7_print_amended.2 pciExampleDesc).2.2.2.2.2.2
    { size := 0x1000, isIo := false, prefetchable := false } (by decide)

end SymbHW

